import Mathlib

/-!
Verification of the face-anonymization core of `backend/main.py`
(Face-Anonymizer). The Python functions `detect_faces_deepface`,
`detect_faces_opencv`, `anonymize_face`, `process_image` and
`process_video` are embedded as pure Lean functions. External library
calls (DeepFace.extract_faces, cv2.cvtColor, detectMultiScale,
GaussianBlur, cv2.resize) are modelled as oracle parameters for their
pixel content, while their documented error and shape behaviour
(cv2.resize / GaussianBlur raise on empty sources or non-positive
target sizes, and produce outputs of the requested shape) is part of
the model. Fallible Python code is embedded with `Except`: an
`Except.error` value corresponds to a Python exception propagating out
of the embedded function.
-/

/-- One pixel of a 3-channel (BGR) byte image. Channel arithmetic is never
performed by the embedded code, so plain naturals suffice. -/
def Pix : Type := Nat × Nat × Nat

instance : DecidableEq Pix := by
  unfold Pix
  infer_instance

/-- The all-zero (solid black) pixel, as produced by `np.zeros_like`. -/
def zeroPix : Pix := (0, 0, 0)

/-- A decoded frame: a `height × width` raster of pixels, indexed
`pix row col` like the numpy array `image[row, col]`. -/
structure Frame where
  width : Nat
  height : Nat
  pix : Nat → Nat → Pix

/-- A rectangular sub-image, as produced by numpy slicing
`image[y:y+h, x:x+w]` (`h` rows, `w` columns). -/
structure SubImg where
  h : Nat
  w : Nat
  pix : Nat → Nat → Pix

/-- A grayscale image, as produced by `cv2.cvtColor(..., COLOR_BGR2GRAY)`.
It is a freshly allocated buffer distinct from the input frame. -/
structure GrayImg where
  height : Nat
  width : Nat
  pix : Nat → Nat → Nat

/-- Python slice-index normalization for an axis of length `n`: a negative
index counts from the end and the result is clamped into `[0, n]`
(semantics of `slice.indices`). -/
def pySliceIdx (n : Nat) (i : Int) : Nat :=
  if i < 0 then (max 0 ((n : Int) + i)).toNat else (min i (n : Int)).toNat

/-- The sub-image denoted by `image[y:y+h, x:x+w]` (numpy basic slicing:
out-of-range parts are clipped, an inverted range is empty). -/
def face_region (image : Frame) (x y w h : Int) : SubImg :=
  { h := pySliceIdx image.height (y + h) - pySliceIdx image.height y
  , w := pySliceIdx image.width (x + w) - pySliceIdx image.width x
  , pix := fun i j =>
      image.pix (pySliceIdx image.height y + i) (pySliceIdx image.width x + j) }

/-- The assignment `image[y:y+h, x:x+w] = sub`. numpy raises a broadcast
error when the shapes differ (broadcasting of degenerate shapes is not
exercised by this code path and is modelled as a mismatch error too). -/
def assignRegion (image : Frame) (x y w h : Int) (sub : SubImg) : Except String Frame :=
  if sub.h = pySliceIdx image.height (y + h) - pySliceIdx image.height y ∧
     sub.w = pySliceIdx image.width (x + w) - pySliceIdx image.width x then
    Except.ok { image with
      pix := fun i j =>
        if pySliceIdx image.height y ≤ i ∧ i < pySliceIdx image.height (y + h) ∧
           pySliceIdx image.width x ≤ j ∧ j < pySliceIdx image.width (x + w) then
          sub.pix (i - pySliceIdx image.height y) (j - pySliceIdx image.width x)
        else image.pix i j }
  else Except.error "could not broadcast"

/-- Pixel-content oracles for the OpenCV raster transforms used by
`anonymize_face`. Shapes and error conditions are fixed by the model;
only the pixel values are abstract. -/
structure CVParams where
  blurPix : SubImg → Int → Nat → Nat → Pix
  linearPix : SubImg → Nat → Nat → Nat → Nat → Pix
  nearestPix : SubImg → Nat → Nat → Nat → Nat → Pix

/-- `cv2.GaussianBlur(src, (k, k), 0)`: raises on an empty source or a
non-positive or even kernel; otherwise returns a same-shape image. -/
def gaussianBlur (cv : CVParams) (src : SubImg) (k : Int) : Except String SubImg :=
  if src.h = 0 ∨ src.w = 0 ∨ k ≤ 0 ∨ k % 2 = 0 then Except.error "GaussianBlur"
  else Except.ok { h := src.h, w := src.w, pix := cv.blurPix src k }

/-- `cv2.resize(src, (tw, th), interpolation=...)`: raises on an empty
source or a non-positive target dimension; otherwise returns an image of
exactly the requested target shape. -/
def cvResize (pixFn : SubImg → Nat → Nat → Nat → Nat → Pix) (src : SubImg)
    (tw th : Int) : Except String SubImg :=
  if src.h = 0 ∨ src.w = 0 ∨ tw ≤ 0 ∨ th ≤ 0 then Except.error "resize"
  else Except.ok { h := th.toNat, w := tw.toNat, pix := pixFn src tw.toNat th.toNat }

/-- `kernel_size = intensity if intensity % 2 == 1 else intensity + 1`
(Python `%` on a positive modulus is the Euclidean remainder, matching
`Int.emod`). -/
def blurKernelSize (intensity : Int) : Int :=
  if intensity % 2 == 1 then intensity else intensity + 1

/-- Embedding of `anonymize_face(image, x, y, w, h, method, intensity)`.
Mutation of `image` becomes explicit state passing; a Python exception
becomes `Except.error`. `w // intensity` is Python floor division
(`Int.fdiv`), raising `ZeroDivisionError` when `intensity == 0`. -/
def anonymize_face (cv : CVParams) (image : Frame) (x y w h : Int)
    (method : String) (intensity : Int) : Except String Frame :=
  let fr := face_region image x y w h
  if method == "blur" then
    match gaussianBlur cv fr (blurKernelSize intensity) with
    | Except.error e => Except.error e
    | Except.ok anonymized => assignRegion image x y w h anonymized
  else if method == "pixelate" then
    if intensity = 0 then Except.error "ZeroDivisionError"
    else
      match cvResize cv.linearPix fr (w.fdiv intensity) (h.fdiv intensity) with
      | Except.error e => Except.error e
      | Except.ok small_face =>
        match cvResize cv.nearestPix small_face w h with
        | Except.error e => Except.error e
        | Except.ok anonymized => assignRegion image x y w h anonymized
  else if method == "mask" then
    assignRegion image x y w h { h := fr.h, w := fr.w, pix := fun _ _ => zeroPix }
  else
    assignRegion image x y w h fr

/-- A concrete 10×10 frame of constant non-zero pixels, used as a test
input. -/
def frame10 : Frame := { width := 10, height := 10, pix := fun _ _ => (5, 6, 7) }

/-- Trivial concrete pixel oracles for evaluating the embedding on
concrete inputs. -/
def cv0 : CVParams :=
  { blurPix := fun _ _ _ _ => zeroPix
  , linearPix := fun _ _ _ _ _ => zeroPix
  , nearestPix := fun _ _ _ _ _ => zeroPix }

/-- One result entry of `DeepFace.extract_faces`: only the
`facial_area` dict is consumed by the code, modelled as an association
list (it may carry keys other than x, y, w, h). -/
structure DetectionEntry where
  facial_area : List (String × Int)

/-- Python `facial_area.get(key, 0)`. -/
def dictGet (d : List (String × Int)) (k : String) : Int :=
  match d.find? (fun p => p.1 == k) with
  | some p => p.2
  | none => 0

/-- The normalization loop of `detect_faces_deepface`: entries whose
`facial_area` dict is empty (falsy) are dropped, the rest yield
`(x, y, w, h)` with absent keys defaulting to 0, in emission order. -/
def deepfaceLocations (faces : List DetectionEntry) : List (Int × Int × Int × Int) :=
  faces.filterMap (fun face =>
    if face.facial_area.isEmpty then none
    else some (dictGet face.facial_area "x", dictGet face.facial_area "y",
               dictGet face.facial_area "w", dictGet face.facial_area "h"))

/-- Outcomes of the external detector calls, one oracle per call site:
`DeepFace.extract_faces`, `cv2.cvtColor(..., COLOR_BGR2GRAY)` and
`CascadeClassifier.detectMultiScale(gray, 1.3, 5)`. An `Except.error`
models the call raising. `detectMultiScale` yields non-negative integer
rectangles. -/
structure DetectorOracles where
  extract_faces : Frame → Except String (List DetectionEntry)
  cvtColorGray : Frame → Except String GrayImg
  detectMultiScale : GrayImg → Except String (List (Nat × Nat × Nat × Nat))

/-- Embedding of `detect_faces_opencv(image_array)`: the whole body is in
a `try` whose handler returns `[]`, so any failure of the grayscale
conversion or the cascade search degrades to no detections. The frame is
returned alongside to make the absence of mutation explicit. -/
def detect_faces_opencv (o : DetectorOracles) (image_array : Frame) :
    List (Int × Int × Int × Int) × Frame :=
  match o.cvtColorGray image_array with
  | Except.error _ => ([], image_array)
  | Except.ok gray =>
    match o.detectMultiScale gray with
    | Except.error _ => ([], image_array)
    | Except.ok faces =>
      (faces.map (fun r => ((r.1 : Int), (r.2.1 : Int), (r.2.2.1 : Int), (r.2.2.2 : Int))),
       image_array)

/-- Embedding of `detect_faces_deepface(image_array)`: try the DeepFace
detector; on any exception fall back to `detect_faces_opencv`. -/
def detect_faces_deepface (o : DetectorOracles) (image_array : Frame) :
    List (Int × Int × Int × Int) × Frame :=
  match o.extract_faces image_array with
  | Except.ok faces => (deepfaceLocations faces, image_array)
  | Except.error _ => detect_faces_opencv o image_array

/-- The anonymization loop of `process_image`: apply `anonymize_face` to
each detected location in order, threading the frame; a raised exception
propagates. -/
def applyAnonymize (cv : CVParams) (method : String) (intensity : Int) :
    List (Int × Int × Int × Int) → Frame → Except String Frame
  | [], img => Except.ok img
  | r :: rest, img =>
    match anonymize_face cv img r.1 r.2.1 r.2.2.1 r.2.2.2 method intensity with
    | Except.error e => Except.error e
    | Except.ok img2 => applyAnonymize cv method intensity rest img2

/-- Embedding of `process_image(image_array, method, intensity)`:
detect faces, anonymize each, return the frame and the number of
detected locations. -/
def process_image (cv : CVParams) (o : DetectorOracles) (image_array : Frame)
    (method : String) (intensity : Int) : Except String (Frame × Nat) :=
  match detect_faces_deepface o image_array with
  | (face_locations, img) =>
    match applyAnonymize cv method intensity face_locations img with
    | Except.error e => Except.error e
    | Except.ok img2 => Except.ok (img2, face_locations.length)

/-- `frame.copy()`: a fresh buffer with identical contents. -/
def frameCopy (f : Frame) : Frame :=
  { width := f.width, height := f.height, pix := fun i j => f.pix i j }

/-- An opened `cv2.VideoCapture`: its reported properties and the
sequence of frames `cap.read()` delivers before returning `ret = False`
(an unopened or unreadable capture has an empty frame list and zero
properties). `fps` is the double `CAP_PROP_FPS`, modelled as a rational;
width and height are integral. `total_frames` is `CAP_PROP_FRAME_COUNT`,
which containers may report as 0 or negative. -/
structure VideoCapture where
  fps : Rat
  width : Nat
  height : Nat
  total_frames : Int
  frames : List Frame

/-- Python `int()` applied to a non-negative double property: truncation
toward zero. -/
def pyInt (q : Rat) : Int := q.num / (q.den : Int)

/-- The `while cap.isOpened()` loop of `process_video`: per frame, copy,
run `process_image`, write the result, bump the counters; every 10th
frame the progress print divides by `total_frames`, raising
`ZeroDivisionError` when the container reported 0 frames. Returns the
accumulated `(total_faces, frame_count, written frames)`. -/
def videoLoop (cv : CVParams) (o : DetectorOracles) (method : String) (intensity : Int)
    (total_frames : Int) :
    List Frame → Nat → Nat → List Frame → Except String (Nat × Nat × List Frame)
  | [], total_faces, frame_count, written =>
    Except.ok (total_faces, frame_count, written.reverse)
  | frame :: rest, total_faces, frame_count, written =>
    match process_image cv o (frameCopy frame) method intensity with
    | Except.error e => Except.error e
    | Except.ok (processed_frame, faces_count) =>
      if (frame_count + 1) % 10 = 0 ∧ total_frames = 0 then Except.error "ZeroDivisionError"
      else
        videoLoop cv o method intensity total_frames rest (total_faces + faces_count)
          (frame_count + 1) (processed_frame :: written)

/-- Observable outcome of one `process_video` run: the parameters the
`VideoWriter` was configured with, the returned pair or the exception,
the frames written, and whether `cap.release()` / `out.release()` were
reached. On the exception path the frames already written before the
failure are not tracked (the caller is to discard the partial file). -/
structure VideoRunResult where
  writerFps : Int
  writerWidth : Nat
  writerHeight : Nat
  outcome : Except String (Nat × Nat)
  writtenFrames : List Frame
  capReleased : Bool
  outReleased : Bool

/-- Embedding of `process_video(video_path, output_path, method,
intensity)`: read the capture properties, configure the writer with
`int(fps)` and `(width, height)`, run the frame loop, then release both
handles. The two `release()` calls sit after the loop with no
`try`/`finally`, so they are reached only when the loop finishes
normally; an exception inside the loop propagates past them. -/
def process_video (cv : CVParams) (o : DetectorOracles) (cap : VideoCapture)
    (method : String) (intensity : Int) : VideoRunResult :=
  let fps := pyInt cap.fps
  match videoLoop cv o method intensity cap.total_frames cap.frames 0 0 [] with
  | Except.error e =>
    { writerFps := fps, writerWidth := cap.width, writerHeight := cap.height
    , outcome := Except.error e, writtenFrames := []
    , capReleased := false, outReleased := false }
  | Except.ok (total_faces, frame_count, written) =>
    { writerFps := fps, writerWidth := cap.width, writerHeight := cap.height
    , outcome := Except.ok (total_faces, frame_count), writtenFrames := written
    , capReleased := true, outReleased := true }

/-- The FaceRegion invariant of the specification, for a region
`(x, y, w, h)` against its owning frame: non-negative origin, positive
extent, fully contained in the frame. -/
def FaceRegionInvariant (f : Frame) (r : Int × Int × Int × Int) : Prop :=
  0 ≤ r.1 ∧ 0 ≤ r.2.1 ∧ 0 < r.2.2.1 ∧ 0 < r.2.2.2 ∧
  r.1 + r.2.2.1 ≤ (f.width : Int) ∧ r.2.1 + r.2.2.2 ≤ (f.height : Int)

/-- Oracle where every external detector call fails (e.g. model load
failure in DeepFace and a conversion failure in the fallback). -/
def oracleAllFail : DetectorOracles :=
  { extract_faces := fun _ => Except.error "model load failure"
  , cvtColorGray := fun _ => Except.error "bad image"
  , detectMultiScale := fun _ => Except.error "cascade failure" }

/-- Oracle where DeepFace succeeds and reports no faces. -/
def oracleNoFace : DetectorOracles :=
  { extract_faces := fun _ => Except.ok []
  , cvtColorGray := fun _ => Except.error "not reached"
  , detectMultiScale := fun _ => Except.error "not reached" }

/-- Oracle where DeepFace succeeds with a single well-formed 4×4 face
region at the origin. -/
def oracleOneFace : DetectorOracles :=
  { extract_faces := fun _ =>
      Except.ok [{ facial_area := [("x", 0), ("y", 0), ("w", 4), ("h", 4)] }]
  , cvtColorGray := fun _ => Except.error "not reached"
  , detectMultiScale := fun _ => Except.error "not reached" }

/-- Oracle where DeepFace succeeds with one detection entry whose
`facial_area` descriptor is non-empty but lacks the y, w and h keys. -/
def oracleDegenerate : DetectorOracles :=
  { extract_faces := fun _ => Except.ok [{ facial_area := [("x", 3)] }]
  , cvtColorGray := fun _ => Except.error "not reached"
  , detectMultiScale := fun _ => Except.error "not reached" }

/-- A two-frame capture with an integral frame rate. -/
def cap2 : VideoCapture :=
  { fps := 30, width := 10, height := 10, total_frames := 2, frames := [frame10, frame10] }

/-- A one-frame capture, used to drive the pipeline into a mid-loop
processing exception. -/
def cap1 : VideoCapture :=
  { fps := 30, width := 10, height := 10, total_frames := 1, frames := [frame10] }

/-- An empty capture whose container reports the non-integral frame rate
29.97 (the rational 2997/100, given in lowest terms). -/
def cap297 : VideoCapture :=
  { fps := ⟨2997, 100, by norm_num, by norm_num⟩
  , width := 64, height := 48, total_frames := 10, frames := [] }

lemma pySliceIdx_eq_toNat (n : Nat) (i : Int) (h0 : 0 ≤ i) (hn : i ≤ (n : Int)) :
    pySliceIdx n i = i.toNat := by
  unfold pySliceIdx
  rw [if_neg (by omega)]
  omega

lemma assignRegion_ok (image : Frame) (x y w h : Int) (sub : SubImg)
    (hsh : sub.h = pySliceIdx image.height (y + h) - pySliceIdx image.height y)
    (hsw : sub.w = pySliceIdx image.width (x + w) - pySliceIdx image.width x) :
    assignRegion image x y w h sub = Except.ok
      { width := image.width, height := image.height
      , pix := fun i j =>
          if pySliceIdx image.height y ≤ i ∧ i < pySliceIdx image.height (y + h) ∧
             pySliceIdx image.width x ≤ j ∧ j < pySliceIdx image.width (x + w) then
            sub.pix (i - pySliceIdx image.height y) (j - pySliceIdx image.width x)
          else image.pix i j } := by
  unfold assignRegion
  rw [if_pos ⟨hsh, hsw⟩]

lemma detect_faces_opencv_snd (o : DetectorOracles) (image_array : Frame) :
    (detect_faces_opencv o image_array).2 = image_array := by
  unfold detect_faces_opencv
  cases o.cvtColorGray image_array with
  | error e => rfl
  | ok gray =>
    dsimp only
    cases o.detectMultiScale gray with
    | error e => rfl
    | ok faces => rfl

lemma detect_faces_deepface_snd (o : DetectorOracles) (image_array : Frame) :
    (detect_faces_deepface o image_array).2 = image_array := by
  unfold detect_faces_deepface
  cases o.extract_faces image_array with
  | error e => exact detect_faces_opencv_snd o image_array
  | ok faces => rfl

lemma videoLoop_ok_count (cv : CVParams) (o : DetectorOracles) (method : String)
    (intensity : Int) (tf : Int) :
    ∀ (frames : List Frame) (total_faces frame_count : Nat) (written : List Frame)
      (v : Nat × Nat × List Frame),
      videoLoop cv o method intensity tf frames total_faces frame_count written = Except.ok v →
      v.2.1 = frame_count + frames.length := by
  intro frames
  induction frames with
  | nil =>
    intro total_faces frame_count written v hv
    unfold videoLoop at hv
    injection hv with hv
    subst hv
    simp
  | cons frame rest ih =>
    intro total_faces frame_count written v hv
    unfold videoLoop at hv
    cases hpi : process_image cv o (frameCopy frame) method intensity with
    | error e => rw [hpi] at hv; simp at hv
    | ok p =>
      obtain ⟨processed_frame, faces_count⟩ := p
      rw [hpi] at hv
      dsimp only at hv
      by_cases hz : (frame_count + 1) % 10 = 0 ∧ tf = 0
      · rw [if_pos hz] at hv; simp at hv
      · rw [if_neg hz] at hv
        have := ih (total_faces + faces_count) (frame_count + 1) (processed_frame :: written) v hv
        simp only [List.length_cons]
        omega

/-- Claim C1 (code bug). The claim requires that pixelating a fully
in-frame region with `intensity` greater than the region's width or
height neither crashes nor collapses the region. In the code the
downscale target is `(w // intensity, h // intensity)` with no guard, so
for the 4×4 region at the origin of a 10×10 frame and `intensity = 5`
the target is `(0, 0)` and `cv2.resize` raises, whatever the pixel
contents: `anonymize_face` fails instead of anonymizing. -/
theorem pixelate_large_intensity_error (cv : CVParams) :
    anonymize_face cv frame10 0 0 4 4 "pixelate" 5 = Except.error "resize" := rfl

/-- Claim C3. The face locator never propagates a detector failure: when
the DeepFace call raises, the result is that of the OpenCV cascade
fallback, and when the fallback also fails (at the grayscale conversion
or the cascade search) the result degrades to the empty list, with the
frame passed through. The embedded locator is a total function into a
plain list, so no error can reach the caller. -/
theorem detect_fallback_no_error (o : DetectorOracles) (img : Frame) (e : String)
    (hp : o.extract_faces img = Except.error e) :
    detect_faces_deepface o img = detect_faces_opencv o img ∧
    (∀ e2, o.cvtColorGray img = Except.error e2 →
      detect_faces_deepface o img = ([], img)) ∧
    (∀ gray e3, o.cvtColorGray img = Except.ok gray →
      o.detectMultiScale gray = Except.error e3 →
      detect_faces_deepface o img = ([], img)) := by
  have h1 : detect_faces_deepface o img = detect_faces_opencv o img := by
    unfold detect_faces_deepface
    rw [hp]
  refine ⟨h1, ?_, ?_⟩
  · intro e2 h2
    rw [h1]
    unfold detect_faces_opencv
    rw [h2]
  · intro gray e3 hg h3
    rw [h1]
    unfold detect_faces_opencv
    rw [hg]
    dsimp only
    rw [h3]

/-- Witness for C3: with both detectors failing on a concrete frame, the
locator returns the empty list and the unchanged frame. -/
theorem detect_fallback_no_error_witness :
    detect_faces_deepface oracleAllFail frame10 = ([], frame10) :=
  (detect_fallback_no_error oracleAllFail frame10 "model load failure" rfl).2.1
    "bad image" rfl

/-- Counterexample to claim C4: a DeepFace detection entry whose
`facial_area` descriptor is non-empty but lacks the w and h keys is not
dropped; the locator emits `(3, 0, 0, 0)`, whose width and height are 0,
violating the FaceRegion invariant. -/
theorem locator_invariant_counterexample :
    (detect_faces_deepface oracleDegenerate frame10).1 = [(3, 0, 0, 0)] ∧
    ¬ FaceRegionInvariant frame10 (3, 0, 0, 0) := by
  constructor
  · rfl
  · unfold FaceRegionInvariant
    decide

/-- Claim C4, amended. The locator performs no validation of the
regions: on the DeepFace path it only drops entries whose `facial_area`
descriptor is empty and emits every other entry verbatim, with missing
coordinate keys defaulting to 0 — it does not enforce positivity of the
extent nor containment in the frame. -/
theorem deepface_locations_unvalidated (faces : List DetectionEntry) :
    deepfaceLocations faces =
      (faces.filter (fun f => !f.facial_area.isEmpty)).map
        (fun f => (dictGet f.facial_area "x", dictGet f.facial_area "y",
                   dictGet f.facial_area "w", dictGet f.facial_area "h")) := by
  induction faces with
  | nil => rfl
  | cons a t ih =>
    unfold deepfaceLocations at ih ⊢
    simp only [List.isEmpty_iff] at ih ⊢
    by_cases hE : a.facial_area = [] <;>
      simp [List.filterMap_cons, List.filter_cons, hE, ih]

/-- Claim C6. For every positive intensity, the blur kernel size
computed by `anonymize_face` is odd: an odd intensity is used as-is and
an even intensity is incremented by 1. -/
theorem blur_kernel_always_odd (intensity : Int) (_hpos : 0 < intensity) :
    blurKernelSize intensity % 2 = 1 ∧
    (intensity % 2 = 1 → blurKernelSize intensity = intensity) ∧
    (intensity % 2 = 0 → blurKernelSize intensity = intensity + 1) := by
  unfold blurKernelSize
  simp only [beq_iff_eq]
  by_cases hodd : intensity % 2 = 1
  · rw [if_pos hodd]
    exact ⟨hodd, fun _ => rfl, fun h0 => by omega⟩
  · rw [if_neg hodd]
    refine ⟨by omega, fun h1 => absurd h1 hodd, fun _ => rfl⟩

/-- Witness for C6 at the even intensity 52: the kernel is 53. -/
theorem blur_kernel_always_odd_witness :
    (0 : Int) < 52 ∧
    (blurKernelSize 52 % 2 = 1 ∧
      ((52 : Int) % 2 = 1 → blurKernelSize 52 = 52) ∧
      ((52 : Int) % 2 = 0 → blurKernelSize 52 = 52 + 1)) :=
  ⟨by decide, blur_kernel_always_odd 52 (by decide)⟩

/-- Claim C10. Face detection has no side effect on the frame: both the
DeepFace locator and the cascade fallback return the input frame
untouched (the fallback works on the separately allocated grayscale
buffer produced by `cv2.cvtColor`). -/
theorem detect_no_frame_mutation (o : DetectorOracles) (image_array : Frame) :
    (detect_faces_deepface o image_array).2 = image_array ∧
    (detect_faces_opencv o image_array).2 = image_array :=
  ⟨detect_faces_deepface_snd o image_array, detect_faces_opencv_snd o image_array⟩

/-- Claim C7. For a region fully inside the frame, the mask method
succeeds for every intensity, keeps the frame dimensions and the
region's own shape, sets every pixel inside the region to the zero
(black) value, and leaves every pixel outside the region unchanged. -/
theorem mask_blackens_region (cv : CVParams) (image : Frame) (x y w h intensity : Int)
    (hx : 0 ≤ x) (hy : 0 ≤ y) (hw : 0 ≤ w) (hh : 0 ≤ h)
    (hxw : x + w ≤ (image.width : Int)) (hyh : y + h ≤ (image.height : Int)) :
    ∃ img2, anonymize_face cv image x y w h "mask" intensity = Except.ok img2 ∧
      img2.width = image.width ∧ img2.height = image.height ∧
      (∀ i j : Nat, y.toNat ≤ i → i < y.toNat + h.toNat →
        x.toNat ≤ j → j < x.toNat + w.toNat → img2.pix i j = zeroPix) ∧
      (∀ i j : Nat,
        ¬(y.toNat ≤ i ∧ i < y.toNat + h.toNat ∧ x.toNat ≤ j ∧ j < x.toNat + w.toNat) →
        img2.pix i j = image.pix i j) := by
  have hr : pySliceIdx image.height y = y.toNat :=
    pySliceIdx_eq_toNat image.height y hy (by omega)
  have hrh : pySliceIdx image.height (y + h) = (y + h).toNat :=
    pySliceIdx_eq_toNat image.height (y + h) (by omega) (by omega)
  have hc : pySliceIdx image.width x = x.toNat :=
    pySliceIdx_eq_toNat image.width x hx (by omega)
  have hcw : pySliceIdx image.width (x + w) = (x + w).toNat :=
    pySliceIdx_eq_toNat image.width (x + w) (by omega) (by omega)
  have hstep : anonymize_face cv image x y w h "mask" intensity =
      assignRegion image x y w h
        { h := (face_region image x y w h).h, w := (face_region image x y w h).w
        , pix := fun _ _ => zeroPix } := rfl
  have hok := assignRegion_ok image x y w h
    { h := (face_region image x y w h).h, w := (face_region image x y w h).w
    , pix := fun _ _ => zeroPix } rfl rfl
  refine ⟨_, hstep.trans hok, rfl, rfl, ?_, ?_⟩
  · intro i j h1 h2 h3 h4
    dsimp only
    have hcond : pySliceIdx image.height y ≤ i ∧ i < pySliceIdx image.height (y + h) ∧
        pySliceIdx image.width x ≤ j ∧ j < pySliceIdx image.width (x + w) := by
      rw [hr, hrh, hc, hcw]
      omega
    rw [if_pos hcond]
  · intro i j hout
    dsimp only
    have hcond : ¬(pySliceIdx image.height y ≤ i ∧ i < pySliceIdx image.height (y + h) ∧
        pySliceIdx image.width x ≤ j ∧ j < pySliceIdx image.width (x + w)) := by
      rw [hr, hrh, hc, hcw]
      omega
    rw [if_neg hcond]

/-- Witness for C7: the 4×5 region at (2, 3) of the concrete 10×10
frame, masked with the default intensity 51. -/
theorem mask_blackens_region_witness :
    ∃ img2, anonymize_face cv0 frame10 2 3 4 5 "mask" 51 = Except.ok img2 ∧
      img2.width = frame10.width ∧ img2.height = frame10.height ∧
      (∀ i j : Nat, (3 : Int).toNat ≤ i → i < (3 : Int).toNat + (5 : Int).toNat →
        (2 : Int).toNat ≤ j → j < (2 : Int).toNat + (4 : Int).toNat →
        img2.pix i j = zeroPix) ∧
      (∀ i j : Nat,
        ¬((3 : Int).toNat ≤ i ∧ i < (3 : Int).toNat + (5 : Int).toNat ∧
          (2 : Int).toNat ≤ j ∧ j < (2 : Int).toNat + (4 : Int).toNat) →
        img2.pix i j = frame10.pix i j) :=
  mask_blackens_region cv0 frame10 2 3 4 5 51 (by decide) (by decide) (by decide)
    (by decide) (by decide) (by decide)

/-- Claim C9. For every frame, every region (of any integer
coordinates) and every intensity, an unrecognized method is a no-op
pass-through: `anonymize_face` succeeds and every pixel of the frame is
unchanged, since the extracted sub-image is written back verbatim to
the very slice it came from. -/
theorem unrecognized_method_noop (cv : CVParams) (image : Frame) (x y w h intensity : Int)
    (method : String) (h1 : method ≠ "blur") (h2 : method ≠ "pixelate")
    (h3 : method ≠ "mask") :
    ∃ img2, anonymize_face cv image x y w h method intensity = Except.ok img2 ∧
      img2.width = image.width ∧ img2.height = image.height ∧
      ∀ i j : Nat, img2.pix i j = image.pix i j := by
  have hstep : anonymize_face cv image x y w h method intensity =
      assignRegion image x y w h (face_region image x y w h) := by
    unfold anonymize_face
    simp only [beq_iff_eq]
    rw [if_neg h1, if_neg h2, if_neg h3]
  have hok := assignRegion_ok image x y w h (face_region image x y w h) rfl rfl
  refine ⟨_, hstep.trans hok, rfl, rfl, ?_⟩
  intro i j
  dsimp only
  by_cases hcond : pySliceIdx image.height y ≤ i ∧ i < pySliceIdx image.height (y + h) ∧
      pySliceIdx image.width x ≤ j ∧ j < pySliceIdx image.width (x + w)
  · obtain ⟨hc1, hc2, hc3, hc4⟩ := hcond
    rw [if_pos ⟨hc1, hc2, hc3, hc4⟩]
    unfold face_region
    dsimp only
    have ha : pySliceIdx image.height y + (i - pySliceIdx image.height y) = i := by omega
    have hb : pySliceIdx image.width x + (j - pySliceIdx image.width x) = j := by omega
    rw [ha, hb]
  · rw [if_neg hcond]

/-- Witness for C9: the method string "sepia" on a region that sticks
out of the concrete frame, with a negative coordinate and intensity 0. -/
theorem unrecognized_method_noop_witness :
    ∃ img2, anonymize_face cv0 frame10 (-1) 2 30 3 "sepia" 0 = Except.ok img2 ∧
      img2.width = frame10.width ∧ img2.height = frame10.height ∧
      ∀ i j : Nat, img2.pix i j = frame10.pix i j :=
  unrecognized_method_noop cv0 frame10 (-1) 2 30 3 0 "sepia"
    (by decide) (by decide) (by decide)

/-- Claim C8. When the locator reports no faces, `process_image`
returns the input frame itself — every pixel unchanged — and a face
count of 0. -/
theorem process_image_no_faces (cv : CVParams) (o : DetectorOracles) (image_array : Frame)
    (method : String) (intensity : Int)
    (hdet : (detect_faces_deepface o image_array).1 = []) :
    process_image cv o image_array method intensity = Except.ok (image_array, 0) := by
  have hpair : detect_faces_deepface o image_array = ([], image_array) := by
    have hsnd := detect_faces_deepface_snd o image_array
    exact Prod.ext hdet hsnd
  unfold process_image
  rw [hpair]
  rfl

/-- Witness for C8: DeepFace reporting zero faces on the concrete frame
makes `process_image` the identity with count 0. -/
theorem process_image_no_faces_witness :
    process_image cv0 oracleNoFace frame10 "blur" 51 = Except.ok (frame10, 0) :=
  process_image_no_faces cv0 oracleNoFace frame10 "blur" 51 rfl

/-- Counterexample to claim C5: the writer is configured with
`int(cap.get(CAP_PROP_FPS))`, so for an input container reporting the
frame rate 29.97 the output encoder is configured with 29, not the same
frame rate. -/
theorem process_video_fps_counterexample :
    ((process_video cv0 oracleNoFace cap297 "blur" 51).writerFps : Rat) ≠ cap297.fps := by
  decide

/-- Claim C5, amended. On every run of `process_video` that returns
(rather than raising), the returned `frames_processed` equals the number
of frames read from the input, and the output encoder is configured with
the input's width and height and with the input frame rate truncated to
an integer by `int()` — which coincides with the input rate only when
that rate is integral. -/
theorem process_video_count_and_config (cv : CVParams) (o : DetectorOracles)
    (cap : VideoCapture) (method : String) (intensity : Int) (tfaces fcount : Nat)
    (hok : (process_video cv o cap method intensity).outcome = Except.ok (tfaces, fcount)) :
    fcount = cap.frames.length ∧
    (process_video cv o cap method intensity).writerFps = pyInt cap.fps ∧
    (process_video cv o cap method intensity).writerWidth = cap.width ∧
    (process_video cv o cap method intensity).writerHeight = cap.height := by
  unfold process_video at hok ⊢
  cases hloop : videoLoop cv o method intensity cap.total_frames cap.frames 0 0 [] with
  | error e =>
    rw [hloop] at hok
    simp at hok
  | ok v =>
    obtain ⟨tf2, fc2, wr⟩ := v
    rw [hloop] at hok
    dsimp only at hok ⊢
    injection hok with hok
    injection hok with h1 h2
    have hcount := videoLoop_ok_count cv o method intensity cap.total_frames
      cap.frames 0 0 [] (tf2, fc2, wr) hloop
    refine ⟨?_, rfl, rfl, rfl⟩
    rw [← h2]
    simpa using hcount

/-- Witness for C5 (amended): a two-frame capture with integral frame
rate 30 processed with no detected faces returns `frames_processed = 2`
and writer configuration (30, 10, 10). -/
theorem process_video_count_and_config_witness :
    2 = cap2.frames.length ∧
    (process_video cv0 oracleNoFace cap2 "blur" 51).writerFps = pyInt cap2.fps ∧
    (process_video cv0 oracleNoFace cap2 "blur" 51).writerWidth = cap2.width ∧
    (process_video cv0 oracleNoFace cap2 "blur" 51).writerHeight = cap2.height :=
  process_video_count_and_config cv0 oracleNoFace cap2 "blur" 51 0 2 rfl

/-- Counterexample to claim C2: a processing error in the middle of the
frame loop (here: pixelate of a detected 4×4 face with `intensity = 5`,
which makes `cv2.resize` raise) propagates out of `process_video`
before either `cap.release()` or `out.release()` is reached — the two
release calls sit after the loop with no `try`/`finally`, so both
handles leak on exception. -/
theorem process_video_leak_counterexample :
    (process_video cv0 oracleOneFace cap1 "pixelate" 5).outcome = Except.error "resize" ∧
    (process_video cv0 oracleOneFace cap1 "pixelate" 5).capReleased = false ∧
    (process_video cv0 oracleOneFace cap1 "pixelate" 5).outReleased = false :=
  ⟨rfl, rfl, rfl⟩

/-- Claim C2, amended. The capture and writer handles are both released
exactly when the frame loop runs to completion (input exhausted); when a
decode, processing or encode step raises mid-loop, the exception
propagates and neither handle is released. -/
theorem process_video_release_behavior (cv : CVParams) (o : DetectorOracles)
    (cap : VideoCapture) (method : String) (intensity : Int) :
    (∀ v, (process_video cv o cap method intensity).outcome = Except.ok v →
      (process_video cv o cap method intensity).capReleased = true ∧
      (process_video cv o cap method intensity).outReleased = true) ∧
    (∀ e, (process_video cv o cap method intensity).outcome = Except.error e →
      (process_video cv o cap method intensity).capReleased = false ∧
      (process_video cv o cap method intensity).outReleased = false) := by
  unfold process_video
  cases hloop : videoLoop cv o method intensity cap.total_frames cap.frames 0 0 [] with
  | error e =>
    refine ⟨fun v hv => ?_, fun e2 he => ⟨rfl, rfl⟩⟩
    simp at hv
  | ok v =>
    obtain ⟨tf2, fc2, wr⟩ := v
    refine ⟨fun v2 hv => ⟨rfl, rfl⟩, fun e2 he => ?_⟩
    simp at he

/-- Witness for C2 (amended): on a run that completes normally, both
release flags are set. -/
theorem process_video_release_behavior_witness :
    (process_video cv0 oracleNoFace cap2 "blur" 51).capReleased = true ∧
    (process_video cv0 oracleNoFace cap2 "blur" 51).outReleased = true :=
  (process_video_release_behavior cv0 oracleNoFace cap2 "blur" 51).1 (0, 2) rfl

